import Mathlib

/-!
# Verification of the AI board-game generator against its specification

The repository ships a React frontend (`App.tsx`, `GeneratedGame.tsx`,
`lib/dummy-data.ts`).  The backend orchestration engine the specification
describes (job manager, DAG orchestrator, balance loop, regeneration
controller) is not part of the source tree; where a claim is decided by that
engine we model it from the specification (each such definition is marked
`Modelled from the spec:`).

Untyped JavaScript values are embedded as a `Json` inductive; the frontend
handlers (`handleSubmit`, the polling loop, the `GeneratedGame` render
guards) are translated as pure functions over explicit client state.
-/

/-- JSON-like values, the shallow embedding of untyped JavaScript data. -/
inductive Json where
  | str : String → Json
  | num : Int → Json
  | bool : Bool → Json
  | null : Json
  | arr : List Json → Json
  | obj : List (String × Json) → Json

namespace Json

/-- JavaScript property access `v[k]`: `none` models `undefined`
(property access on a non-object, or a missing key). -/
def get? : Json → String → Option Json
  | .obj fields, k => fields.lookup k
  | _, _ => none

/-- Property access defaulting to `null` when absent (used only inside
schema checkers, where `null` and `undefined` fail the same way). -/
def getD (v : Json) (k : String) : Json :=
  (v.get? k).getD .null

/-- JavaScript truthiness of a defined value. -/
def truthy : Json → Bool
  | .str s => s ≠ ""
  | .num n => n ≠ 0
  | .bool b => b
  | .null => false
  | .arr _ => true
  | .obj _ => true

/-- JavaScript truthiness of a possibly-`undefined` value. -/
def truthy? : Option Json → Bool
  | none => false
  | some v => v.truthy

/-- `Object.keys`: field names of an object, index strings of an array or
a string, empty for primitives. -/
def keys : Json → List String
  | .obj fields => fields.map Prod.fst
  | .arr l => (List.range l.length).map toString
  | .str s => (List.range s.length).map toString
  | _ => []

/-- Is the value a string? -/
def isStr : Json → Bool
  | .str _ => true
  | _ => false

/-- Is the value an array of strings? -/
def isStrArr : Json → Bool
  | .arr l => l.all isStr
  | _ => false

end Json

/-!
## `src/frontend/src/lib/dummy-data.ts`

The exported `dummyGameState` object, embedded verbatim as a `Json` value.
Each top-level field is its own definition so theorems can refer to a single
stage value directly.
-/

/-- The `game_design` field of `dummyGameState`. -/
def dummyGameDesign : Json := .obj
  [ ("game_name", .str "Cosmic Rift"),
    ("concept", .str "A fast-paced, competitive deck-building game where players take on the role of celestial beings vying for control of the cosmos. Players use their influence to acquire powerful artifacts, manipulate stellar events, and ultimately shatter their opponent's celestial core."),
    ("core_mechanics", .arr [.str "Deck Building", .str "Hand Management", .str "Direct Attack"]),
    ("win_condition", .str "The first player to reduce their opponent's celestial core from 20 to 0 is the winner."),
    ("game_flow", .str "\n*   **Start of Game:** Each player starts with a deck of 10 basic cards (7 'Stardust' for energy, 3 'Rift Bolt' for attack).\n*   **The Turn:** A player's turn consists of three phases:\n    1.  **Draw Phase:** Draw 5 cards from your deck.\n    2.  **Main Phase:** Play cards from your hand to generate energy, attack the opponent, or acquire new cards from the central 'Nebula' row.\n    3.  **End Phase:** Discard your hand and any unused energy."),
    ("starter_cards", .arr
      [ .obj [("name", .str "Stardust"), ("type", .str "Resource"), ("cost", .str "0"),
              ("text", .str "Gain 1 Energy."), ("flavor_text", .str "The raw essence of creation.")],
        .obj [("name", .str "Rift Bolt"), ("type", .str "Attack"), ("cost", .str "1"),
              ("text", .str "Deal 1 damage to the opponent."), ("flavor_text", .str "A simple, yet effective tear in reality.")],
        .obj [("name", .str "Nebula Worm"), ("type", .str "Creature"), ("cost", .str "3"),
              ("text", .str "Deal 3 damage. You may banish a card from your discard pile."), ("flavor_text", .str "It feasts on dying stars.")] ]) ]

/-- The `rulebook` field of `dummyGameState`: a bare markdown string. -/
def dummyRulebook : Json :=
  .str "\n# Cosmic Rift Rulebook\n\n## Introduction\nWelcome to Cosmic Rift! You are a celestial being, a master of cosmic energy. Your goal is to shatter your opponent's core while protecting your own.\n\n## Gameplay\nPlayers take turns playing cards, generating energy, and attacking. The central 'Nebula' contains powerful cards that can be acquired to improve your deck.\n\n## Winning\nReduce the opponent's core health to 0 to win the game!\n"

/-- The `art_style_guide` field of `dummyGameState`: a bare markdown string. -/
def dummyArtStyleGuide : Json :=
  .str "\n# Art Style Guide: Cosmic Rift\n\n## Vision\nThe art should feel vast, ethereal, and powerful. Think nebulae, galaxies, and strange cosmic phenomena. The mood is one of awe and conflict.\n\n## Color Palette\n-   Deep Purples (#483D8B)\n-   Starlight Gold (#FFD700)\n-   Nebula Pink (#EE82EE)\n-   Cosmic Black (#000000)\n"

/-- The `card_artwork` field of `dummyGameState`: an ARRAY of
`{card_name, artwork_description}` records (not a mapping, and with no
font or iconography fields). -/
def dummyCardArtwork : Json := .arr
  [ .obj [("card_name", .str "Stardust"),
          ("artwork_description", .str "A gentle swirl of shimmering, golden dust against a dark, starry background.")],
    .obj [("card_name", .str "Rift Bolt"),
          ("artwork_description", .str "A jagged tear in space, with bright purple energy crackling from the edges.")],
    .obj [("card_name", .str "Nebula Worm"),
          ("artwork_description", .str "A massive, iridescent worm-like creature with a gaping maw, coiling through a pink and purple nebula.")] ]

/-- The `balance_analysis` field of `dummyGameState`. -/
def dummyBalanceAnalysis : Json := .obj
  [ ("balance_analysis", .str "The initial balance seems reasonable for a fast-paced game. The cost-to-effect ratio of the starter cards is a good baseline. The Nebula Worm might be slightly too powerful for its cost, offering both damage and a secondary effect."),
    ("suggested_card_changes", .arr
      [ .obj [("card_name", .str "Nebula Worm"),
              ("suggested_change", .str "Increase cost from 3 to 4."),
              ("reasoning", .str "This brings its power level more in line with other cards that might be available in the early game.")] ]) ]

/-- The `qa_report` field of `dummyGameState`. -/
def dummyQaReport : Json := .obj
  [ ("qa_summary", .str "Overall, the generated content is coherent and consistent. The rulebook clearly explains the core concepts, and the art style guide provides a strong vision. The balance analysis correctly identifies a potential outlier."),
    ("issues_found", .arr []) ]

/-- `export const dummyGameState = {...}` from `dummy-data.ts`. -/
def dummyGameState : Json := .obj
  [ ("game_design", dummyGameDesign),
    ("rulebook", dummyRulebook),
    ("art_style_guide", dummyArtStyleGuide),
    ("card_artwork", dummyCardArtwork),
    ("balance_analysis", dummyBalanceAnalysis),
    ("qa_report", dummyQaReport) ]

/-!
## Stage output schemas

Spec section 6: AggregateState is keyed by the six stage names, each value
matching that stage's declared output schema.  The `game_design` and
`card_artwork` shapes are spelled out in the spec; the remaining stages'
shapes are taken from how `GeneratedGame.tsx` consumes them
(`rulebook.rulebook`, `art_style_guide.art_style_guide`,
`balance_analysis.{balance_analysis, suggested_card_changes}`,
`qa_report.{qa_summary, issues_found}`).
-/

/-- A card record as the spec and `GeneratedGame.tsx` use it: name, type
tag, cost and effect text (flavor text is optional). -/
def cardRecordCheck (c : Json) : Bool :=
  match c with
  | .obj _ =>
      (c.getD "name").isStr && (c.getD "type").isStr &&
      (c.getD "cost").isStr && (c.getD "text").isStr
  | _ => false

/-- Schema of the `game_design` stage output (spec section 6). -/
def gameDesignCheck (v : Json) : Bool :=
  match v with
  | .obj _ =>
      (v.getD "game_name").isStr && (v.getD "concept").isStr &&
      (v.getD "core_mechanics").isStrArr &&
      (v.getD "win_condition").isStr && (v.getD "game_flow").isStr &&
      (match v.getD "starter_cards" with
       | .arr cards => cards.all cardRecordCheck
       | _ => false)
  | _ => false

/-- One entry of the per-card artwork mapping: artwork description, title
font, body font and an ordered list of iconography tags (spec section 6,
and the fields `GeneratedGame.tsx` reads at lines 104-108). -/
def artworkEntryCheck (e : Json) : Bool :=
  (e.getD "artwork_description").isStr && (e.getD "title_font").isStr &&
  (e.getD "body_font").isStr && (e.getD "iconography").isStrArr

/-- Schema of the `card_artwork` stage output: an object whose `artwork`
field maps each card name to an artwork entry (the shape
`GeneratedGame.tsx` renders from). -/
def cardArtworkCheck (v : Json) : Bool :=
  match v.get? "artwork" with
  | some (.obj entries) => entries.all (fun kv => artworkEntryCheck kv.2)
  | _ => false

/-- Schema of the `rulebook` stage output (`GeneratedGame.tsx` renders
`rulebook.rulebook` as markdown). -/
def rulebookCheck (v : Json) : Bool :=
  (v.getD "rulebook").isStr

/-- Schema of the `art_style_guide` stage output (`GeneratedGame.tsx`
renders `art_style_guide.art_style_guide` as markdown). -/
def artStyleGuideCheck (v : Json) : Bool :=
  (v.getD "art_style_guide").isStr

/-- One suggested card change of the balance analysis. -/
def suggestedChangeCheck (c : Json) : Bool :=
  (c.getD "card_name").isStr && (c.getD "suggested_change").isStr &&
  (c.getD "reasoning").isStr

/-- Schema of the `balance_analysis` stage output. -/
def balanceAnalysisCheck (v : Json) : Bool :=
  (v.getD "balance_analysis").isStr &&
  (match v.getD "suggested_card_changes" with
   | .arr cs => cs.all suggestedChangeCheck
   | _ => false)

/-- Schema of the `qa_report` stage output. -/
def qaReportCheck (v : Json) : Bool :=
  (v.getD "qa_summary").isStr &&
  (match v.getD "issues_found" with
   | .arr _ => true
   | _ => false)

/-- The six required stage keys of a complete AggregateState
(spec section 6). -/
def requiredStages : List String :=
  ["game_design", "rulebook", "art_style_guide", "card_artwork",
   "balance_analysis", "qa_report"]

/-- The declared output schema of each stage. -/
def stageValid (stage : String) (v : Json) : Bool :=
  if stage = "game_design" then gameDesignCheck v
  else if stage = "rulebook" then rulebookCheck v
  else if stage = "art_style_guide" then artStyleGuideCheck v
  else if stage = "card_artwork" then cardArtworkCheck v
  else if stage = "balance_analysis" then balanceAnalysisCheck v
  else if stage = "qa_report" then qaReportCheck v
  else false

/-- An AggregateState: the stage-name-keyed mapping of merged results. -/
abbrev Aggregate := List (String × Json)

/-- The upstream stages each stage needs (spec section 4.3: Game Design
feeds Balance Review, Rules Writing and Art Direction; Asset Generation
follows Art Direction; Quality Assurance needs every other stage). -/
def stageDeps (stage : String) : List String :=
  if stage = "game_design" then []
  else if stage = "rulebook" then ["game_design"]
  else if stage = "art_style_guide" then ["game_design"]
  else if stage = "balance_analysis" then ["game_design"]
  else if stage = "card_artwork" then ["game_design", "art_style_guide"]
  else if stage = "qa_report" then
    ["game_design", "rulebook", "art_style_guide", "card_artwork",
     "balance_analysis"]
  else []

/-- All declared dependencies of a stage are already merged. -/
def depsPresent (stage : String) (agg : Aggregate) : Bool :=
  (stageDeps stage).all (fun d => (agg.lookup d).isSome)

/-- A stage's result is present in the aggregate and passes its declared
schema. -/
def stagePresentValid (stage : String) (agg : Aggregate) : Bool :=
  match agg.lookup stage with
  | some v => stageValid stage v
  | none => false

/-- Every required stage key is present and its result passes its
stage's declared schema: the invariant of a `complete` job. -/
def aggregateCompleteValid (agg : Aggregate) : Bool :=
  requiredStages.all (fun s => stagePresentValid s agg)

/-!
## `src/frontend/src/App.tsx` — client model

`handleSubmit` and `pollJobStatus` are translated as pure functions: the
network is an explicit parameter, React state updates become fields of an
explicit client state, and one `setInterval` callback run becomes one
`pollStep`.
-/

/-- `const USE_DUMMY_DATA = true` (App.tsx line 26). -/
def USE_DUMMY_DATA : Bool := true

/-- The simulated delay of the dummy branch (`setTimeout(..., 1000)`). -/
def dummyDelayMs : Nat := 1000

/-- The polling cadence (`setInterval(..., 5000)`, "Poll every 5 seconds"). -/
def pollIntervalMs : Nat := 5000

/-- The form fields `handleSubmit` reads from React state. -/
structure FormState where
  gameTheme : String
  gameType : String
  playerCount : Nat × Nat
  playTime : String
  complexity : String
  playStyle : String
  artStyle : String
  additionalNotes : String

/-- An HTTP request issued by the client. -/
structure HttpRequest where
  method : String
  url : String
  body : Option Json

/-- The `POST /generate-game/` request `handleSubmit` builds from the form
state in its non-dummy branch. -/
def generateGameRequest (f : FormState) : HttpRequest :=
  { method := "POST",
    url := "http://localhost:8000/generate-game/",
    body := some (.obj
      [ ("game_theme", .str f.gameTheme),
        ("game_type", .str f.gameType),
        ("player_count", .arr [.num f.playerCount.1, .num f.playerCount.2]),
        ("play_time", .str f.playTime),
        ("complexity", .str f.complexity),
        ("play_style", .str f.playStyle),
        ("art_style", .str f.artStyle),
        ("additional_notes", .str f.additionalNotes) ]) }

/-- The settled effect of one `handleSubmit` call: which requests went out,
the final `generatedGame` and `loading` state, and whether a polling loop
was started (and for which job id). -/
structure SubmitOutcome where
  requests : List HttpRequest
  generatedGame : Option Json
  loading : Bool
  pollingJob : Option Json

/-- `handleSubmit` (App.tsx lines 64-103).  `generateResponse` models the
parsed JSON of the `/generate-game/` response; `none` models a fetch or
parse that threw.  With `USE_DUMMY_DATA` set, the handler returns before
any fetch: after the simulated delay `generatedGame` is `dummyGameState`
and `loading` is cleared. -/
def handleSubmit (generateResponse : FormState → Option Json)
    (f : FormState) : SubmitOutcome :=
  if USE_DUMMY_DATA then
    { requests := [],
      generatedGame := some dummyGameState,
      loading := false,
      pollingJob := none }
  else
    match generateResponse f with
    | none =>
        { requests := [generateGameRequest f], generatedGame := none,
          loading := false, pollingJob := none }
    | some data =>
        match data.get? "job_id" with
        | some jid =>
            if jid.truthy then
              { requests := [generateGameRequest f], generatedGame := none,
                loading := true, pollingJob := some jid }
            else
              { requests := [generateGameRequest f], generatedGame := none,
                loading := false, pollingJob := none }
        | none =>
            { requests := [generateGameRequest f], generatedGame := none,
              loading := false, pollingJob := none }

/-- The parsed body of one `GET /game-status/{job_id}` poll. -/
structure StatusResponse where
  status : String
  result : Option Json

/-- What one interval tick of `pollJobStatus` observes: a parsed response,
or a fetch/`response.json()` that threw. -/
inductive PollResult where
  | ok : StatusResponse → PollResult
  | err : PollResult

/-- A poll observation that is a terminal status (`complete` or `failed`);
a thrown poll is not a status observation at all. -/
def isTerminalPoll : PollResult → Bool
  | .ok r => r.status = "complete" || r.status = "failed"
  | .err => false

/-- The client state `pollJobStatus` manipulates: the `generatedGame` and
`loading` React state, and whether the `setInterval` handle is still
active (`polling = false` after `clearInterval`). -/
structure ClientState where
  generatedGame : Option Json
  loading : Bool
  polling : Bool

/-- The client state right after `handleSubmit` starts polling:
`loading` set, no `generatedGame`, interval active. -/
def pollStart : ClientState :=
  { generatedGame := none, loading := true, polling := true }

/-- One run of the `setInterval` callback in `pollJobStatus` (App.tsx
lines 42-60): on `complete` store the result, clear `loading`, clear the
interval; on `failed` clear `loading` and the interval without storing;
on any other status do nothing and keep polling; if the fetch or parse
threw, the catch block clears `loading` and the interval.  A cleared
interval never fires again. -/
def pollStep (s : ClientState) (p : PollResult) : ClientState :=
  if s.polling then
    match p with
    | .ok r =>
        if r.status = "complete" then
          { generatedGame := r.result, loading := false, polling := false }
        else if r.status = "failed" then
          { s with loading := false, polling := false }
        else s
    | .err => { s with loading := false, polling := false }
  else s

/-- The client state after a sequence of poll observations. -/
def pollRun (s : ClientState) : List PollResult → ClientState
  | [] => s
  | p :: ps => pollRun (pollStep s p) ps

/-!
## `src/frontend/src/components/GeneratedGame.tsx` — render model

The component is translated as a pure function from the `gameState` prop
to either a render error (a thrown `TypeError` during rendering) or the
list of accordion sections it shows (`none` = the component returned
`null`).  Section bodies are abstracted to their section ids, except the
card-artwork body, whose failure mode (`iconography.join` on a missing or
non-array field) is what claim-relevant behavior depends on.
-/

/-- JS `v.length > 0`: true for a non-empty array or string, false when
`length` is `undefined`. -/
def jsLengthPos : Json → Bool
  | .arr l => l.length > 0
  | .str s => s.length > 0
  | _ => false

/-- The guard of the starter-cards accordion item (GeneratedGame.tsx line
75): `game_design && game_design.starter_cards &&
game_design.starter_cards.length > 0`. -/
def showStarterCards (g : Json) : Bool :=
  match g.get? "game_design" with
  | none => false
  | some gd =>
      gd.truthy &&
      (match gd.get? "starter_cards" with
       | none => false
       | some sc => sc.truthy && jsLengthPos sc)

/-- The guard of the card-artwork accordion item (GeneratedGame.tsx line
93): `card_artwork && card_artwork.artwork &&
Object.keys(card_artwork.artwork).length > 0`. -/
def showCardArtwork (g : Json) : Bool :=
  match g.get? "card_artwork" with
  | none => false
  | some ca =>
      ca.truthy &&
      (match ca.get? "artwork" with
       | none => false
       | some aw => aw.truthy && aw.keys.length > 0)

/-- Rendering one artwork entry (GeneratedGame.tsx lines 101-109): the
interpolations tolerate missing fields, but
`card_artwork.artwork[cardName].iconography.join(', ')` throws a
`TypeError` unless `iconography` is an array. -/
def renderArtworkEntry (name : String) (e : Json) : Except String String :=
  match e.getD "iconography" with
  | .arr _ => .ok name
  | _ => .error "TypeError: iconography.join is not a function"

/-- The body of the card-artwork accordion item: one rendered entry per
key of `card_artwork.artwork`. -/
def renderCardArtworkSection (g : Json) : Except String (List String) :=
  match (g.get? "card_artwork").bind (fun ca => ca.get? "artwork") with
  | some (.obj entries) => entries.mapM (fun kv => renderArtworkEntry kv.1 kv.2)
  | _ => .ok []

/-- The accordion section ids `GeneratedGame` shows for a truthy
`gameState`, in source order, each under its code guard. -/
def sectionsShown (g : Json) : List String :=
  (if Json.truthy? (g.get? "game_design") then ["game-design"] else []) ++
  (if Json.truthy? (g.get? "rulebook") then ["rulebook"] else []) ++
  (if Json.truthy? (g.get? "art_style_guide") then ["art-style-guide"] else []) ++
  (if showStarterCards g then ["starter-cards"] else []) ++
  (if showCardArtwork g then ["card-artwork"] else []) ++
  (if Json.truthy? (g.get? "balance_analysis") then ["balance-analysis"] else []) ++
  (if Json.truthy? (g.get? "qa_report") then ["qa-report"] else [])

/-- The `GeneratedGame` component: `if (!gameState) return null` (lines
12-14), otherwise render the guarded sections; a shown card-artwork
section renders its body, which may throw. -/
def renderGeneratedGame (gameState : Option Json) :
    Except String (Option (List String)) :=
  match gameState with
  | none => .ok none
  | some g =>
      if g.truthy then
        if showCardArtwork g then
          match renderCardArtworkSection g with
          | .error e => .error e
          | .ok _ => .ok (some (sectionsShown g))
        else .ok (some (sectionsShown g))
      else .ok none

/-!
## Backend orchestration engine — modelled from the spec

The engine (Job Manager, Orchestrator, Regeneration Controller, Balance
Feedback Loop) is described by the specification but has no source under
`src/`; the frontend only calls its HTTP endpoints.  Each definition below
is modelled from the spec and says which section it follows.
-/

/-- Modelled from the spec: the job lifecycle states of section 4.2
(`queued → running → complete | failed`); the Job Manager itself is not in
the source tree. -/
inductive JobStatus where
  | queued
  | running
  | complete
  | failed
deriving DecidableEq

/-- The status string the status endpoint serializes (spec section 6). -/
def statusString : JobStatus → String
  | .queued => "queued"
  | .running => "running"
  | .complete => "complete"
  | .failed => "failed"

/-- The error record of a failed job: which stage failed and why. -/
structure JobError where
  stage : String
  message : String

/-- Modelled from the spec: a Job of section 3 — status, current
AggregateState, version counter bumped on every successful merge, and an
error record when failed; the Job Manager owning it is not in the source
tree. -/
structure Job where
  status : JobStatus
  aggregate : Aggregate
  version : Nat
  error : Option JobError

/-- Replace the entry of one stage in the aggregate (append when absent);
a StageResult is replaced wholesale, never partially patched
(spec section 3). -/
def upsert (agg : Aggregate) (k : String) (v : Json) : Aggregate :=
  match agg with
  | [] => [(k, v)]
  | (k', v') :: rest =>
      if k' = k then (k, v) :: rest else (k', v') :: upsert rest k v

/-- Modelled from the spec: the `GET /game-status/{job_id}` view of a job
(section 6): the status string, the AggregateState when `complete`, the
error record when `failed`; the endpoint itself is not in the source
tree. -/
structure StatusView where
  status : String
  result : Option Aggregate
  error : Option JobError

/-- Modelled from the spec: `getStatus` of the Job Manager (section 4.2);
not in the source tree. -/
def getStatus (j : Job) : StatusView :=
  { status := statusString j.status,
    result := if j.status = .complete then some j.aggregate else none,
    error := if j.status = .failed then j.error else none }

/-- A regeneration target: a whole stage or a single card
(spec section 4.5). -/
inductive RegenTarget where
  | stage : String → RegenTarget
  | card : String → RegenTarget

/-- Does a record's `field` name this card? -/
def hasName (field name : String) (e : Json) : Bool :=
  match e.get? field with
  | some (.str s) => s = name
  | _ => false

/-- Replace, in a list of records, every record whose `field` is `name`
by the regenerated record. -/
def replaceNamed (field name : String) (newEntry : Json) : Json → Json
  | .arr l => .arr (l.map (fun e => if hasName field name e then newEntry else e))
  | v => v

/-- Replace the value stored under one key of an object. -/
def replaceKey (key : String) (newVal : Json) : Json → Json
  | .obj fields =>
      .obj (fields.map (fun kv => if kv.1 = key then (kv.1, newVal) else kv))
  | v => v

/-- Apply a field-update to one named field of an object. -/
def mapField (key : String) (f : Json → Json) : Json → Json
  | .obj fields =>
      .obj (fields.map (fun kv => if kv.1 = key then (kv.1, f kv.2) else kv))
  | v => v

/-- Modelled from the spec: the regenerated entries a card regeneration
produces for the three stages that reference cards (section 3: replacing
a card means replacing its entries across the design, balance and artwork
StageResults atomically). -/
structure CardRegenPayload where
  designEntry : Json
  balanceEntry : Json
  artworkEntry : Json

/-- The stages whose results reference individual cards
(spec section 3). -/
def cardStages : List String :=
  ["game_design", "balance_analysis", "card_artwork"]

/-- The new value of one stage after regenerating a card: the card's
starter-card record, suggested-change records and artwork entry are
replaced; every other stage is untouched. -/
def regenCardVal (cardName : String) (p : CardRegenPayload)
    (stage : String) (v : Json) : Json :=
  if stage = "game_design" then
    mapField "starter_cards" (replaceNamed "name" cardName p.designEntry) v
  else if stage = "balance_analysis" then
    mapField "suggested_card_changes"
      (replaceNamed "card_name" cardName p.balanceEntry) v
  else if stage = "card_artwork" then
    mapField "artwork" (replaceKey cardName p.artworkEntry) v
  else v

/-- The whole aggregate after regenerating a card. -/
def regenCardAgg (agg : Aggregate) (cardName : String)
    (p : CardRegenPayload) : Aggregate :=
  agg.map (fun kv => (kv.1, regenCardVal cardName p kv.1 kv.2))

/-- The regenerated card's entries carry the card's own name (the adapter
validates the regenerated output for coherence, spec section 4.5). -/
def cardPayloadNamed (cardName : String) (p : CardRegenPayload) : Bool :=
  hasName "name" cardName p.designEntry &&
  hasName "card_name" cardName p.balanceEntry

/-- The structured output of the regeneration's agent call: a whole stage
result, or the per-stage entries of one card. -/
inductive RegenPayload where
  | stageResult : Json → RegenPayload
  | cardResult : CardRegenPayload → RegenPayload

/-- Errors of the regeneration controller (spec sections 4.5 and 7). -/
inductive RegenError where
  | jobNotReady
  | stageFailed : String → RegenError

/-- Modelled from the spec: the merge step of the Regeneration Controller
(section 4.5) — requires a `complete` job, validates the regenerated
output, replaces exactly the targeted StageResult (or the targeted card's
entries) and increments the version; not in the source tree. -/
def applyRegen (j : Job) : RegenTarget → RegenPayload → Except RegenError Job
  | .stage name, .stageResult v =>
      if j.status = .complete then
        if stageValid name v then
          .ok { j with aggregate := upsert j.aggregate name v,
                       version := j.version + 1 }
        else .error (.stageFailed name)
      else .error .jobNotReady
  | .card name, .cardResult cp =>
      if j.status = .complete then
        if cardPayloadNamed name cp &&
           cardStages.all (fun s =>
             match j.aggregate.lookup s with
             | some v => stageValid s (regenCardVal name cp s v)
             | none => true) then
          .ok { j with aggregate := regenCardAgg j.aggregate name cp,
                       version := j.version + 1 }
        else .error (.stageFailed "regeneration")
      else .error .jobNotReady
  | _, _ => .error (.stageFailed "regeneration")

/-- The outcome of the agent call a regeneration performs: a validated
structured output, or a `StageFailed` after retries exhaust. -/
inductive AdapterOutcome where
  | ok : RegenPayload → AdapterOutcome
  | failed : String → AdapterOutcome

/-- The response of `POST /regenerate/{job_id}`: it mirrors the status
shape (spec section 6). -/
structure RegenResponse where
  status : String
  result : Option Aggregate
  error : Option String

/-- Modelled from the spec: the `POST /regenerate/{job_id}` handler
(sections 4.5 and 6) — rejects a non-`complete` job; on a failed agent
call or a rejected merge the job's prior `complete` state and result are
returned unchanged; not in the source tree. -/
def handleRegenerate (j : Job) (t : RegenTarget) (call : AdapterOutcome) :
    Job × RegenResponse :=
  if j.status = .complete then
    match call with
    | .failed m =>
        (j, { status := "complete", result := some j.aggregate,
              error := some m })
    | .ok p =>
        match applyRegen j t p with
        | .ok j' =>
            (j', { status := "complete", result := some j'.aggregate,
                   error := none })
        | .error _ =>
            (j, { status := "complete", result := some j.aggregate,
                  error := some "StageFailed" })
  else
    (j, { status := statusString j.status, result := none,
          error := some "JobNotReady" })

/-- Does the regeneration request fail (failed agent call, or a merge the
controller rejects)? -/
def regenCallFails (j : Job) (t : RegenTarget) : AdapterOutcome → Bool
  | .failed _ => true
  | .ok p =>
      match applyRegen j t p with
      | .error _ => true
      | .ok _ => false

/-- Modelled from the spec: which job states the Job Manager and the
Regeneration Controller can produce (sections 4.2, 4.3, 4.5): a job is
submitted `queued` with an empty aggregate, starts `running`, merges one
validated stage result at a time once that stage's dependencies are
present, completes only when every required stage is merged and valid,
fails from `running`, and a `complete` job may be regenerated. -/
inductive Reachable : Job → Prop where
  | submit :
      Reachable { status := .queued, aggregate := [], version := 0,
                  error := none }
  | start {j : Job} : Reachable j → j.status = .queued →
      Reachable { j with status := .running }
  | merge {j : Job} (stage : String) (v : Json) : Reachable j →
      j.status = .running → stageValid stage v = true →
      depsPresent stage j.aggregate = true →
      Reachable { j with aggregate := upsert j.aggregate stage v,
                         version := j.version + 1 }
  | finish {j : Job} : Reachable j → j.status = .running →
      aggregateCompleteValid j.aggregate = true →
      Reachable { j with status := .complete }
  | fail {j : Job} (e : JobError) : Reachable j → j.status = .running →
      Reachable { j with status := .failed, error := some e }
  | regen {j j' : Job} (t : RegenTarget) (p : RegenPayload) :
      Reachable j → applyRegen j t p = .ok j' → Reachable j'

/-- Are there suggested card changes left (spec section 4.4: the loop
re-runs while Balance Review lists one or more suggested changes)? -/
def hasSuggestedChanges (balance : Json) : Bool :=
  match balance.getD "suggested_card_changes" with
  | .arr l => !l.isEmpty
  | _ => false

/-- The configured maximum number of corrective rounds of the balance
feedback loop (spec section 4.4, default 2). -/
def maxBalanceRounds : Nat := 2

/-- Modelled from the spec: the Balance Feedback Loop (section 4.4) — while
Balance Review lists suggested changes and rounds remain, re-invoke Game
Design with the prior design and the suggestions, re-run Balance Review
against the revision, and replace the pair; after the bound the last
design/balance pair is accepted as final.  Returns the final pair and the
number of corrective rounds performed; not in the source tree. -/
def balanceLoop (designAgent : Json → Json → Json)
    (balanceAgent : Json → Json) :
    Nat → Json → Json → (Json × Json) × Nat
  | 0, d, b => ((d, b), 0)
  | n + 1, d, b =>
      if hasSuggestedChanges b then
        let d' := designAgent d b
        let b' := balanceAgent d'
        let r := balanceLoop designAgent balanceAgent n d' b'
        (r.1, r.2 + 1)
      else ((d, b), 0)

/-!
## Frame predicates and concrete example data

`maskCard` erases one card's entries from the stages that reference it;
two aggregates agree on everything except that card exactly when their
masks are equal.  The example values below are concrete well-formed stage
results used to instantiate the backend theorems.
-/

/-- Remove, from a list of records, every record whose `field` names the
card. -/
def dropNamed (field name : String) : Json → Json
  | .arr l => .arr (l.filter (fun e => !hasName field name e))
  | v => v

/-- Remove one key from an object. -/
def dropKey (key : String) : Json → Json
  | .obj fields => .obj (fields.filter (fun kv => kv.1 != key))
  | v => v

/-- Erase one card's entries from one stage's result: its starter-card
record, its suggested-change records, its artwork entry; other stages are
untouched. -/
def dropCardVal (cardName stage : String) (v : Json) : Json :=
  if stage = "game_design" then
    mapField "starter_cards" (dropNamed "name" cardName) v
  else if stage = "balance_analysis" then
    mapField "suggested_card_changes" (dropNamed "card_name" cardName) v
  else if stage = "card_artwork" then
    mapField "artwork" (dropKey cardName) v
  else v

/-- The aggregate with one card's entries erased everywhere. -/
def maskCard (cardName : String) (agg : Aggregate) : Aggregate :=
  agg.map (fun kv => (kv.1, dropCardVal cardName kv.1 kv.2))

/-- The frame condition of a regeneration: everything outside the target
is byte-identical.  For a stage target, all other stages' entries are
unchanged; for a card target, erasing that card's entries makes the two
aggregates identical (so unrelated stages, and other cards' entries, are
unchanged). -/
def regenFrame : RegenTarget → Aggregate → Aggregate → Prop
  | .stage name, old, new =>
      new.filter (fun e => e.1 != name) = old.filter (fun e => e.1 != name)
  | .card name, old, new => maskCard name new = maskCard name old

/-- A poll observation that succeeded and reported a non-terminal status
(the job still `queued` or `running`). -/
def nonTerminalOk : PollResult → Bool
  | .ok r => !(r.status = "complete" || r.status = "failed")
  | .err => false

/-- The client state after `clearInterval` has run. -/
def stoppedState : ClientState :=
  { generatedGame := none, loading := false, polling := false }

/-- `card_artwork` carries an `artwork` mapping with at least one card
key (the shape under which `GeneratedGame` shows the artwork section). -/
def hasNonemptyArtwork (g : Json) : Bool :=
  match (g.get? "card_artwork").bind (fun ca => ca.get? "artwork") with
  | some aw => aw.keys.length > 0
  | none => false

/-- A schema-conforming artwork entry for one card. -/
def exampleArtworkEntry (desc : String) : Json := .obj
  [ ("artwork_description", .str desc),
    ("title_font", .str "Orbitron"),
    ("body_font", .str "Lora"),
    ("iconography", .arr [.str "star", .str "energy"]) ]

/-- A schema-conforming `card_artwork` stage result: a mapping from card
name to artwork entry, under the `artwork` key. -/
def exampleArtworkStage : Json := .obj
  [ ("artwork", .obj
      [ ("Stardust", exampleArtworkEntry "A swirl of golden dust."),
        ("Rift Bolt", exampleArtworkEntry "A jagged tear in space."),
        ("Nebula Worm", exampleArtworkEntry "An iridescent worm.") ]) ]

/-- A schema-conforming `rulebook` stage result. -/
def exampleRulebookStage : Json := .obj [("rulebook", dummyRulebook)]

/-- A schema-conforming `art_style_guide` stage result. -/
def exampleArtStyleStage : Json := .obj
  [("art_style_guide", dummyArtStyleGuide)]

/-- A complete, schema-conforming AggregateState, in the order the six
merges below produce it. -/
def exampleAggregate : Aggregate :=
  [ ("game_design", dummyGameDesign),
    ("rulebook", exampleRulebookStage),
    ("art_style_guide", exampleArtStyleStage),
    ("balance_analysis", dummyBalanceAnalysis),
    ("card_artwork", exampleArtworkStage),
    ("qa_report", dummyQaReport) ]

/-- A `complete` job holding `exampleAggregate` after its six merges. -/
def exampleCompleteJob : Job :=
  { status := .complete, aggregate := exampleAggregate, version := 6,
    error := none }

/-- A regenerated `rulebook` stage result. -/
def exampleNewRulebook : Json :=
  .obj [("rulebook", .str "## Revised Cosmic Rift rulebook")]

/-- The job a successful `rulebook` regeneration of `exampleCompleteJob`
produces. -/
def exampleRegenJob : Job :=
  { status := .complete,
    aggregate := upsert exampleAggregate "rulebook" exampleNewRulebook,
    version := 7, error := none }

/-- A game state whose `card_artwork` has the mapping shape the artwork
section requires. -/
def exampleArtworkGameState : Json :=
  .obj [("card_artwork", exampleArtworkStage)]

/-- Two non-terminal polls: the job observed `queued`, then `running`. -/
def examplePollPrefix : List PollResult :=
  [.ok { status := "queued", result := none },
   .ok { status := "running", result := none }]

/-- Polls arriving after the failed one, including a late `complete`. -/
def examplePollSuffix : List PollResult :=
  [.ok { status := "complete", result := some dummyGameState }]

/-!
## Helper lemmas
-/

theorem lookupA_cons (a k : String) (b : Json) (l : Aggregate) :
    List.lookup a ((k, b) :: l) = if a = k then some b else List.lookup a l := by
  by_cases h : a = k
  · rw [List.lookup_cons, if_pos h, show (a == k) = true from beq_iff_eq.mpr h]
  · rw [List.lookup_cons, if_neg h,
        show (a == k) = false from beq_eq_false_iff_ne.mpr h]

theorem lookup_upsert (agg : Aggregate) (k k' : String) (v : Json) :
    (upsert agg k v).lookup k' = if k' = k then some v else agg.lookup k' := by
  induction agg with
  | nil => simp [upsert, lookupA_cons]
  | cons e rest ih =>
      obtain ⟨a, b⟩ := e
      by_cases hak : a = k
      · subst hak
        simp only [upsert, if_pos rfl]
        by_cases h : k' = a <;> simp [h, lookupA_cons]
      · simp only [upsert, if_neg hak]
        rw [lookupA_cons, lookupA_cons, ih]
        by_cases h1 : k' = a
        · subst h1
          simp [hak]
        · by_cases h2 : k' = k
          · subst h2
            simp [h1]
          · simp [h1, h2]

theorem lookup_regenCardAgg (agg : Aggregate) (c : String)
    (p : CardRegenPayload) (s : String) :
    (regenCardAgg agg c p).lookup s
      = (agg.lookup s).map (fun v => regenCardVal c p s v) := by
  induction agg with
  | nil => simp [regenCardAgg]
  | cons e rest ih =>
      obtain ⟨a, b⟩ := e
      simp only [regenCardAgg, List.map_cons] at ih ⊢
      rw [lookupA_cons, lookupA_cons]
      by_cases h : s = a
      · subst h; simp
      · simp [h, ih]

theorem filter_upsert (agg : Aggregate) (k : String) (v : Json) :
    (upsert agg k v).filter (fun e => e.1 != k)
      = agg.filter (fun e => e.1 != k) := by
  induction agg with
  | nil => simp [upsert]
  | cons e rest ih =>
      obtain ⟨a, b⟩ := e
      by_cases hak : a = k
      · subst hak
        simp [upsert, List.filter_cons]
      · simp [upsert, hak, List.filter_cons, bne_iff_ne, ih]

theorem filter_map_replace {α : Type} (pred : α → Bool) (r : α)
    (hr : pred r = true) (l : List α) :
    (l.map (fun e => if pred e then r else e)).filter (fun e => !pred e)
      = l.filter (fun e => !pred e) := by
  induction l with
  | nil => rfl
  | cons e rest ih =>
      cases h : pred e with
      | true => simp [List.map_cons, List.filter_cons, h, hr, ih]
      | false => simp [List.map_cons, List.filter_cons, h, ih]

theorem dropNamed_replaceNamed (field name : String) (newEntry v : Json)
    (h : hasName field name newEntry = true) :
    dropNamed field name (replaceNamed field name newEntry v)
      = dropNamed field name v := by
  cases v with
  | arr l =>
      simp only [replaceNamed, dropNamed]
      exact congrArg Json.arr (filter_map_replace (hasName field name) newEntry h l)
  | str s => rfl
  | num n => rfl
  | bool b => rfl
  | null => rfl
  | obj fields => rfl

theorem dropKey_replaceKey (key : String) (newVal v : Json) :
    dropKey key (replaceKey key newVal v) = dropKey key v := by
  cases v with
  | obj fields =>
      simp only [replaceKey, dropKey]
      congr 1
      induction fields with
      | nil => rfl
      | cons kv rest ih =>
          by_cases h : kv.1 = key <;>
            simp [List.map_cons, List.filter_cons, h, bne_iff_ne, ih]
  | str s => rfl
  | num n => rfl
  | bool b => rfl
  | null => rfl
  | arr l => rfl

theorem mapField_comp (key : String) (f g : Json → Json) (v : Json) :
    mapField key f (mapField key g v) = mapField key (fun x => f (g x)) v := by
  cases v with
  | obj fields =>
      simp only [mapField, List.map_map]
      congr 1
      induction fields with
      | nil => rfl
      | cons kv rest ih =>
          by_cases h : kv.1 = key <;> simp [Function.comp, h, ih]
  | str s => rfl
  | num n => rfl
  | bool b => rfl
  | null => rfl
  | arr l => rfl

theorem mapField_congr (key : String) {f g : Json → Json}
    (h : ∀ x, f x = g x) (v : Json) :
    mapField key f v = mapField key g v := by
  cases v <;> simp [mapField, h]

theorem dropCardVal_regenCardVal (c : String) (p : CardRegenPayload)
    (hd : hasName "name" c p.designEntry = true)
    (hb : hasName "card_name" c p.balanceEntry = true)
    (s : String) (v : Json) :
    dropCardVal c s (regenCardVal c p s v) = dropCardVal c s v := by
  by_cases h1 : s = "game_design"
  · subst h1
    simp only [regenCardVal, dropCardVal]
    norm_num
    rw [mapField_comp]
    exact mapField_congr _
      (fun x => dropNamed_replaceNamed "name" c p.designEntry x hd) v
  · by_cases h2 : s = "balance_analysis"
    · subst h2
      simp only [regenCardVal, dropCardVal, if_neg h1]
      norm_num
      rw [mapField_comp]
      exact mapField_congr _
        (fun x => dropNamed_replaceNamed "card_name" c p.balanceEntry x hb) v
    · by_cases h3 : s = "card_artwork"
      · subst h3
        simp only [regenCardVal, dropCardVal, if_neg h1, if_neg h2]
        norm_num
        rw [mapField_comp]
        exact mapField_congr _ (fun x => dropKey_replaceKey c p.artworkEntry x) v
      · simp only [regenCardVal, dropCardVal, if_neg h1, if_neg h2, if_neg h3]

theorem maskCard_regenCardAgg (agg : Aggregate) (c : String)
    (p : CardRegenPayload)
    (hd : hasName "name" c p.designEntry = true)
    (hb : hasName "card_name" c p.balanceEntry = true) :
    maskCard c (regenCardAgg agg c p) = maskCard c agg := by
  simp only [maskCard, regenCardAgg, List.map_map]
  induction agg with
  | nil => rfl
  | cons kv rest ih =>
      simp [Function.comp, dropCardVal_regenCardVal c p hd hb, ih]

theorem aggregateCompleteValid_upsert {agg : Aggregate} {name : String}
    {v : Json} (h : aggregateCompleteValid agg = true)
    (hv : stageValid name v = true) :
    aggregateCompleteValid (upsert agg name v) = true := by
  rw [aggregateCompleteValid, List.all_eq_true] at h ⊢
  intro s hs
  have hsv := h s hs
  simp only [stagePresentValid] at hsv ⊢
  rw [lookup_upsert]
  by_cases hsn : s = name
  · subst hsn
    rw [if_pos rfl]
    exact hv
  · rw [if_neg hsn]
    exact hsv

theorem aggregateCompleteValid_regenCard {agg : Aggregate} {c : String}
    {p : CardRegenPayload} (h : aggregateCompleteValid agg = true)
    (hg : cardStages.all (fun s =>
        match agg.lookup s with
        | some v => stageValid s (regenCardVal c p s v)
        | none => true) = true) :
    aggregateCompleteValid (regenCardAgg agg c p) = true := by
  rw [aggregateCompleteValid, List.all_eq_true] at h ⊢
  rw [List.all_eq_true] at hg
  intro s hs
  have hsv := h s hs
  simp only [stagePresentValid] at hsv ⊢
  rw [lookup_regenCardAgg]
  cases hlv : List.lookup s agg with
  | none => rw [hlv] at hsv; exact absurd hsv (by simp)
  | some v =>
      rw [hlv] at hsv
      simp only [Option.map_some']
      by_cases h1 : s = "game_design"
      · subst h1
        have hgs := hg "game_design" (by simp [cardStages])
        rw [hlv] at hgs
        exact hgs
      · by_cases h2 : s = "balance_analysis"
        · subst h2
          have hgs := hg "balance_analysis" (by simp [cardStages])
          rw [hlv] at hgs
          exact hgs
        · by_cases h3 : s = "card_artwork"
          · subst h3
            have hgs := hg "card_artwork" (by simp [cardStages])
            rw [hlv] at hgs
            exact hgs
          · rw [show regenCardVal c p s v = v by
                simp only [regenCardVal, if_neg h1, if_neg h2, if_neg h3]]
            exact hsv

theorem reachable_complete_valid {j : Job} (h : Reachable j) :
    j.status = JobStatus.complete → aggregateCompleteValid j.aggregate = true := by
  induction h with
  | submit => intro hc; exact absurd hc (by decide)
  | start hj hq ih => intro hc; simp at hc
  | merge stage v hj hr hv hd ih =>
      intro hc
      have hc' : _ = JobStatus.complete := hc
      exact absurd (hr.symm.trans hc') (by decide)
  | finish hj hr hv => intro _; exact hv
  | fail e hj hr ih =>
      intro hc
      simp at hc
  | regen t p hj happly ih =>
      intro _
      cases t with
      | stage name =>
          cases p with
          | stageResult v =>
              simp only [applyRegen] at happly
              split at happly
              case isTrue hcomp =>
                split at happly
                case isTrue hv =>
                  injection happly with hj'
                  subst hj'
                  exact aggregateCompleteValid_upsert (ih hcomp) hv
                case isFalse hv => exact absurd happly (by simp)
              case isFalse hcomp => exact absurd happly (by simp)
          | cardResult cp =>
              simp only [applyRegen] at happly
              exact absurd happly (by simp)
      | card name =>
          cases p with
          | stageResult v =>
              simp only [applyRegen] at happly
              exact absurd happly (by simp)
          | cardResult cp =>
              simp only [applyRegen] at happly
              split at happly
              case isTrue hcomp =>
                split at happly
                case isTrue hguard =>
                  injection happly with hj'
                  subst hj'
                  rw [Bool.and_eq_true] at hguard
                  exact aggregateCompleteValid_regenCard (ih hcomp) hguard.2
                case isFalse hguard => exact absurd happly (by simp)
              case isFalse hcomp => exact absurd happly (by simp)

theorem pollStep_stopped {s : ClientState} (hs : s.polling = false)
    (p : PollResult) : pollStep s p = s := by
  simp [pollStep, hs]

theorem pollRun_stopped {s : ClientState} (hs : s.polling = false) :
    ∀ ps : List PollResult, pollRun s ps = s := by
  intro ps
  induction ps with
  | nil => rfl
  | cons q qs ih => rw [pollRun, pollStep_stopped hs]; exact ih

theorem pollStep_nonTerminal {s : ClientState} (hs : s.polling = true)
    {p : PollResult} (hp : nonTerminalOk p = true) : pollStep s p = s := by
  cases p with
  | err => simp [nonTerminalOk] at hp
  | ok r =>
      simp only [nonTerminalOk, Bool.not_eq_true', Bool.or_eq_false_iff,
        decide_eq_false_iff_not] at hp
      simp [pollStep, hs, hp.1, hp.2]

theorem balanceLoop_rounds_le (designAgent : Json → Json → Json)
    (balanceAgent : Json → Json) :
    ∀ (n : Nat) (d b : Json),
      (balanceLoop designAgent balanceAgent n d b).2 ≤ n := by
  intro n
  induction n with
  | zero => intro d b; simp [balanceLoop]
  | succ n ih =>
      intro d b
      rw [balanceLoop]
      by_cases h : hasSuggestedChanges b = true
      · simp only [h, if_true]
        exact Nat.succ_le_succ (ih _ _)
      · simp only [Bool.not_eq_true] at h
        simp [h]

theorem exampleCompleteJob_reachable : Reachable exampleCompleteJob := by
  have h0 := Reachable.submit
  have h1 := Reachable.start h0 rfl
  have h2 := Reachable.merge "game_design" dummyGameDesign h1 rfl
    (by decide) (by decide)
  have h3 := Reachable.merge "rulebook" exampleRulebookStage h2 rfl
    (by decide) (by decide)
  have h4 := Reachable.merge "art_style_guide" exampleArtStyleStage h3 rfl
    (by decide) (by decide)
  have h5 := Reachable.merge "balance_analysis" dummyBalanceAnalysis h4 rfl
    (by decide) (by decide)
  have h6 := Reachable.merge "card_artwork" exampleArtworkStage h5 rfl
    (by decide) (by decide)
  have h7 := Reachable.merge "qa_report" dummyQaReport h6 rfl
    (by decide) (by decide)
  have h8 := Reachable.finish h7 rfl (by decide)
  exact h8

/-!
## Claim theorems
-/

/-- C1: for every reachable job whose status endpoint reports `complete`,
the endpoint returns the job's AggregateState and that aggregate contains
a result for each of the six required stage keys, each conforming to its
stage's declared output schema; the endpoint never reports `complete` for
a job missing any required stage's result. -/
theorem complete_status_reports_valid_aggregate (j : Job) (h : Reachable j)
    (hc : (getStatus j).status = "complete") :
    (getStatus j).result = some j.aggregate ∧
    aggregateCompleteValid j.aggregate = true := by
  have hs : j.status = JobStatus.complete := by
    have hc' : statusString j.status = "complete" := hc
    cases hst : j.status <;> rw [hst] at hc' <;>
      first
        | rfl
        | exact absurd hc' (by decide)
  exact ⟨by simp [getStatus, hs], reachable_complete_valid h hs⟩

/-- C1 witness: the claim evaluated on a concrete job that completed all
six merges. -/
theorem complete_status_reports_valid_aggregate_witness :
    (getStatus exampleCompleteJob).result = some exampleCompleteJob.aggregate ∧
    aggregateCompleteValid exampleCompleteJob.aggregate = true :=
  complete_status_reports_valid_aggregate exampleCompleteJob
    exampleCompleteJob_reachable rfl

/-- C2: at the failing input, the shipped complete game state's
`card_artwork` is the array of `{card_name, artwork_description}` records
of `dummy-data.ts`: it carries no `artwork` mapping and fails the
`card_artwork` schema (card name to artwork description, title font, body
font, iconography) that the spec declares and `GeneratedGame.tsx`
consumes. -/
theorem dummy_card_artwork_not_a_mapping :
    dummyGameState.get? "card_artwork" = some dummyCardArtwork ∧
    cardArtworkCheck dummyCardArtwork = false ∧
    dummyCardArtwork.get? "artwork" = none :=
  ⟨rfl, rfl, rfl⟩

/-- C3: with the shipped `USE_DUMMY_DATA = true`, `handleSubmit` issues
no network request and settles displaying exactly `dummyGameState`; two
submissions with different form inputs (and even different networks)
produce identical outcomes, so the displayed game is independent of every
user input. -/
theorem handleSubmit_dummy_ignores_input
    (net net' : FormState → Option Json) (f g : FormState) :
    (handleSubmit net f).requests = [] ∧
    (handleSubmit net f).generatedGame = some dummyGameState ∧
    handleSubmit net f = handleSubmit net' g :=
  ⟨rfl, rfl, rfl⟩

/-- C4 counterexample: a poll whose fetch throws makes `pollJobStatus`
clear its interval even though no terminal status was observed, so the
client does not stop polling exactly when a terminal status is
observed. -/
theorem pollStep_stops_without_terminal :
    (pollStep pollStart PollResult.err).polling = false ∧
    isTerminalPoll PollResult.err = false :=
  ⟨rfl, rfl⟩

/-- C4 (amended): the client polls at a fixed 5000 ms cadence and stops
polling exactly when a terminal status is observed or a poll throws: on
`complete` it stores the returned result and stops, on `failed` it stops
without storing a result, and once stopped it never polls again. -/
theorem pollStep_terminal_behavior (s s' : ClientState) (p : PollResult)
    (r : StatusResponse) (ps : List PollResult)
    (hs : s.polling = true) (hstop : s'.polling = false) :
    pollIntervalMs = 5000 ∧
    ((pollStep s p).polling = false ↔
      (isTerminalPoll p = true ∨ p = PollResult.err)) ∧
    (r.status = "complete" →
      pollStep s (.ok r) =
        { generatedGame := r.result, loading := false, polling := false }) ∧
    (r.status = "failed" →
      pollStep s (.ok r) = { s with loading := false, polling := false }) ∧
    pollRun s' ps = s' := by
  refine ⟨rfl, ?_, ?_, ?_, pollRun_stopped hstop ps⟩
  · cases p with
    | err => simp [pollStep, hs, isTerminalPoll]
    | ok r' =>
        by_cases h1 : r'.status = "complete"
        · simp [pollStep, hs, isTerminalPoll, h1]
        · by_cases h2 : r'.status = "failed" <;>
            simp [pollStep, hs, isTerminalPoll, h1, h2]
  · intro hr
    simp [pollStep, hs, hr]
  · intro hr
    simp [pollStep, hs, hr]

/-- C4 witness: the amended claim evaluated on a concrete non-terminal
poll, a concrete `failed` response and a stopped client. -/
theorem pollStep_terminal_behavior_witness :
    pollIntervalMs = 5000 ∧
    ((pollStep pollStart (.ok { status := "running", result := none })).polling = false ↔
      (isTerminalPoll (PollResult.ok { status := "running", result := none }) = true ∨
        PollResult.ok { status := "running", result := none } = PollResult.err)) ∧
    (("failed" : String) = "complete" →
      pollStep pollStart (.ok { status := "failed", result := none }) =
        { generatedGame := none, loading := false, polling := false }) ∧
    (("failed" : String) = "failed" →
      pollStep pollStart (.ok { status := "failed", result := none }) =
        { pollStart with loading := false, polling := false }) ∧
    pollRun stoppedState [PollResult.err] = stoppedState :=
  pollStep_terminal_behavior pollStart stoppedState
    (.ok { status := "running", result := none })
    { status := "failed", result := none } [PollResult.err] rfl rfl

/-- C5: a successful regeneration of a target (stage or single card) on a
`complete` job keeps the job `complete`, increments its version, and
replaces only the target: every stage unrelated to the target is
byte-identical to the prior version, and for a card target the other
cards' entries inside the card-bearing stages are unchanged too. -/
theorem applyRegen_frame (j j' : Job) (t : RegenTarget) (p : RegenPayload)
    (hc : j.status = JobStatus.complete)
    (h : applyRegen j t p = .ok j') :
    j'.status = JobStatus.complete ∧ j'.version = j.version + 1 ∧
    regenFrame t j.aggregate j'.aggregate := by
  cases t with
  | stage name =>
      cases p with
      | stageResult v =>
          simp only [applyRegen] at h
          rw [if_pos hc] at h
          split at h
          case isTrue hv =>
            injection h with hj'
            subst hj'
            exact ⟨hc, rfl, filter_upsert j.aggregate name v⟩
          case isFalse hv => exact absurd h (by simp)
      | cardResult cp =>
          simp only [applyRegen] at h
          exact absurd h (by simp)
  | card name =>
      cases p with
      | stageResult v =>
          simp only [applyRegen] at h
          exact absurd h (by simp)
      | cardResult cp =>
          simp only [applyRegen] at h
          rw [if_pos hc] at h
          split at h
          case isTrue hguard =>
            injection h with hj'
            subst hj'
            rw [Bool.and_eq_true] at hguard
            have hnamed := hguard.1
            rw [cardPayloadNamed, Bool.and_eq_true] at hnamed
            exact ⟨hc, rfl,
              maskCard_regenCardAgg j.aggregate name cp hnamed.1 hnamed.2⟩
          case isFalse hguard => exact absurd h (by simp)

/-- C5 witness: a concrete successful `rulebook` regeneration on the
example complete job. -/
theorem applyRegen_frame_witness :
    exampleRegenJob.status = JobStatus.complete ∧
    exampleRegenJob.version = exampleCompleteJob.version + 1 ∧
    regenFrame (.stage "rulebook") exampleCompleteJob.aggregate
      exampleRegenJob.aggregate :=
  applyRegen_frame exampleCompleteJob exampleRegenJob (.stage "rulebook")
    (.stageResult exampleNewRulebook) rfl rfl

/-- C6: a regeneration request that fails (failed agent call, or a merge
the controller rejects) leaves the `complete` job and its stored
AggregateState unchanged, still returns `complete` with the prior result,
and never downgrades the job to `failed`. -/
theorem handleRegenerate_failure_atomic (j : Job) (t : RegenTarget)
    (call : AdapterOutcome) (hc : j.status = JobStatus.complete)
    (hfail : regenCallFails j t call = true) :
    (handleRegenerate j t call).1 = j ∧
    (handleRegenerate j t call).2.status = "complete" ∧
    (handleRegenerate j t call).2.result = some j.aggregate ∧
    (handleRegenerate j t call).1.status ≠ JobStatus.failed := by
  cases call with
  | failed m =>
      refine ⟨?_, ?_, ?_, ?_⟩ <;> simp [handleRegenerate, hc]
  | ok p =>
      simp only [regenCallFails] at hfail
      cases happly : applyRegen j t p with
      | ok j2 => rw [happly] at hfail; exact absurd hfail (by simp)
      | error e =>
          refine ⟨?_, ?_, ?_, ?_⟩ <;> simp [handleRegenerate, hc, happly]

/-- C6 witness: a concrete failed agent call against the example complete
job. -/
theorem handleRegenerate_failure_atomic_witness :
    (handleRegenerate exampleCompleteJob (.stage "rulebook")
      (.failed "timeout")).1 = exampleCompleteJob ∧
    (handleRegenerate exampleCompleteJob (.stage "rulebook")
      (.failed "timeout")).2.status = "complete" ∧
    (handleRegenerate exampleCompleteJob (.stage "rulebook")
      (.failed "timeout")).2.result = some exampleCompleteJob.aggregate ∧
    (handleRegenerate exampleCompleteJob (.stage "rulebook")
      (.failed "timeout")).1.status ≠ JobStatus.failed :=
  handleRegenerate_failure_atomic exampleCompleteJob (.stage "rulebook")
    (.failed "timeout") rfl rfl

/-- C7: for any design and balance agents and any starting pair, the
balance feedback loop performs at most the configured maximum number of
corrective rounds and terminates with the last design/balance pair, even
when the suggested card changes never become empty; in particular at most
2 rounds under the default bound. -/
theorem balanceLoop_bounded (designAgent : Json → Json → Json)
    (balanceAgent : Json → Json) (n : Nat) (d b : Json) :
    (balanceLoop designAgent balanceAgent n d b).2 ≤ n ∧
    (balanceLoop designAgent balanceAgent maxBalanceRounds d b).2 ≤
      maxBalanceRounds :=
  ⟨balanceLoop_rounds_le designAgent balanceAgent n d b,
   balanceLoop_rounds_le designAgent balanceAgent maxBalanceRounds d b⟩

/-- C8: every reachable `complete` job's AggregateState carries a
`game_design` entry passing the game-design schema (`game_name`,
`concept`, ordered `core_mechanics`, `win_condition`, `game_flow`, and
`starter_cards` records each with a name, type tag, cost and effect
text); the shipped dummy `game_design` passes the same schema. -/
theorem complete_game_design_schema (j : Job) (h : Reachable j)
    (hc : j.status = JobStatus.complete) :
    stagePresentValid "game_design" j.aggregate = true ∧
    gameDesignCheck dummyGameDesign = true := by
  have hv := reachable_complete_valid h hc
  rw [aggregateCompleteValid, List.all_eq_true] at hv
  exact ⟨hv "game_design" (by simp [requiredStages]), by decide⟩

/-- C8 witness: the claim evaluated on the example complete job. -/
theorem complete_game_design_schema_witness :
    stagePresentValid "game_design" exampleCompleteJob.aggregate = true ∧
    gameDesignCheck dummyGameDesign = true :=
  complete_game_design_schema exampleCompleteJob
    exampleCompleteJob_reachable rfl

/-- C9: if a poll's fetch or parse throws, `pollJobStatus` clears its
interval and resets the loading flag, permanently abandoning the job:
after any prefix of non-terminal (`queued`/`running`) polls and one
thrown poll, the stored game is unchanged, loading is off, and no later
poll (even a `complete` one) is ever processed. -/
theorem pollRun_error_abandons (s : ClientState)
    (pre post : List PollResult) (hs : s.polling = true)
    (hpre : ∀ p ∈ pre, nonTerminalOk p = true) :
    pollRun s (pre ++ PollResult.err :: post) =
      { generatedGame := s.generatedGame, loading := false,
        polling := false } := by
  revert hpre
  induction pre with
  | nil =>
      intro _
      rw [List.nil_append, pollRun,
          show pollStep s PollResult.err =
            { s with loading := false, polling := false } from
              by simp [pollStep, hs]]
      exact pollRun_stopped rfl post
  | cons q qs ih =>
      intro hpre
      rw [List.cons_append, pollRun,
          pollStep_nonTerminal hs (hpre q (List.mem_cons_self q qs))]
      exact ih (fun p hp => hpre p (List.mem_cons_of_mem q hp))

/-- C9 witness: `queued`, `running`, a thrown poll, then a late
`complete` poll that is ignored. -/
theorem pollRun_error_abandons_witness :
    pollRun pollStart (examplePollPrefix ++ PollResult.err ::
        examplePollSuffix) =
      { generatedGame := pollStart.generatedGame, loading := false,
        polling := false } :=
  pollRun_error_abandons pollStart examplePollPrefix examplePollSuffix
    rfl (by decide)

/-- C10: `GeneratedGame` renders nothing for a missing game state; the
card-artwork section is shown only when `card_artwork` carries an
`artwork` field with at least one key; and on the shipped dummy state,
whose `card_artwork` is an array, the section is silently omitted and the
component renders the remaining sections without a rendering error. -/
theorem generatedGame_artwork_guard (g : Json)
    (hshow : showCardArtwork g = true) :
    renderGeneratedGame none = .ok none ∧
    hasNonemptyArtwork g = true ∧
    showCardArtwork dummyGameState = false ∧
    renderGeneratedGame (some dummyGameState) =
      .ok (some ["game-design", "rulebook", "art-style-guide",
                 "starter-cards", "balance-analysis", "qa-report"]) := by
  refine ⟨rfl, ?_, rfl, rfl⟩
  simp only [showCardArtwork] at hshow
  cases hca : g.get? "card_artwork" with
  | none => rw [hca] at hshow; exact absurd hshow (by simp)
  | some ca =>
      rw [hca] at hshow
      rw [Bool.and_eq_true] at hshow
      obtain ⟨hcat, hrest⟩ := hshow
      cases haw : ca.get? "artwork" with
      | none => rw [haw] at hrest; exact absurd hrest (by simp)
      | some aw =>
          rw [haw] at hrest
          rw [Bool.and_eq_true] at hrest
          simp [hasNonemptyArtwork, hca, haw, hrest.2]

/-- C10 witness: the claim evaluated on a game state whose `card_artwork`
has the proper artwork mapping (so the section guard holds). -/
theorem generatedGame_artwork_guard_witness :
    renderGeneratedGame none = .ok none ∧
    hasNonemptyArtwork exampleArtworkGameState = true ∧
    showCardArtwork dummyGameState = false ∧
    renderGeneratedGame (some dummyGameState) =
      .ok (some ["game-design", "rulebook", "art-style-guide",
                 "starter-cards", "balance-analysis", "qa-report"]) :=
  generatedGame_artwork_guard exampleArtworkGameState rfl
